import Mathlib

/-!
# SmartMove operator console: the live-state session layer

A shallow embedding of `smartmove-web/app.js`.  The page is single threaded and event
driven; every handler is embedded as a function on an explicit `State` holding the script
variables, the persisted entry of `localStorage`, the DOM nodes the script writes to, and the
host's table of running interval timers.  A handler that can raise returns the raised
message next to the state it leaves behind (`Except String α × State`), because the writes
made before a `throw` stay in place.

Scope of the embedding:
* values in identifier and text positions are `undefined`, `null` or a string;
* a response body is a JSON object seen through the fields the script reads;
* numbers of a telemetry reading are seen through their two renderings only;
* a network round trip is answered by an oracle `Net` and runs to completion inside the
  handler that awaits it, so overlapping in-flight requests are not represented;
* the fade-out and removal timers of a toast are not represented: `State.toasts` is the
  sequence of notifications emitted so far;
* the text persisted in `localStorage` is represented by the value it parses to, since
  `JSON.parse` undoes `JSON.stringify` on a list of strings;
* the tab switcher and the two range sliders, which only restyle the document, are left
  out.
-/

namespace SmartMove

/-! ## Values -/

/-- JavaScript values occurring in identifier and text positions. -/
inductive JSVal
  | undefined
  | null
  | str (s : String)
  deriving DecidableEq, Repr

namespace JSVal

/-- Truthiness, the test behind `!x`, `!!x` and `x || y`. -/
def truthy : JSVal → Bool
  | str s => s != ""
  | _ => false

/-- String coercion as performed by a template literal, `textContent` and `new Error(x)`. -/
def toStr : JSVal → String
  | undefined => "undefined"
  | null => "null"
  | str s => s

/-- The operator `x || d` with a string default. -/
def orElse (x : JSVal) (d : String) : String :=
  if x.truthy then x.toStr else d

/-- Assignment to the `value` of an input element: `null` becomes the empty string. -/
def toInputValue : JSVal → String
  | undefined => "undefined"
  | null => ""
  | str s => s

end JSVal

/-- A JavaScript number, observed only through `toFixed(4)` and through string coercion. -/
structure JSNum where
  fixed4 : String
  shown : String
  deriving DecidableEq, Repr

/-- The value of one field of a telemetry reading. -/
inductive TelVal
  | undefined
  | null
  | num (n : JSNum)
  | str (s : String)
  deriving DecidableEq, Repr

namespace TelVal

/-- Rendering of `x?.toFixed?.(4) ?? x` inside a template literal. -/
def fixedText : TelVal → String
  | undefined => "undefined"
  | null => "null"
  | num n => n.fixed4
  | str s => s

/-- Rendering of `x` inside a template literal. -/
def text : TelVal → String
  | undefined => "undefined"
  | null => "null"
  | num n => n.shown
  | str s => s

end TelVal

/-- The fields of `telemetry` that the script reads. -/
structure Telemetry where
  latitude : TelVal := .undefined
  longitude : TelVal := .undefined
  batteryPercent : TelVal := .undefined
  temperatureC : TelVal := .undefined
  deriving DecidableEq, Repr

/-- A parsed response body: a JSON object seen through the fields the script reads.
`telemetry` is `none` when the field is absent or falsy. The default value is `{}`. -/
structure Data where
  error : JSVal := .undefined
  id : JSVal := .undefined
  type : JSVal := .undefined
  city : JSVal := .undefined
  state : JSVal := .undefined
  telemetry : Option Telemetry := none
  deriving DecidableEq, Repr

deriving instance DecidableEq for Except

/-! ## Host functions -/

/-- White space and line terminators removed by `String.prototype.trim`. -/
def isJSWhiteSpace (c : Char) : Bool :=
  let n := c.toNat
  (9 ≤ n && n ≤ 13) || n == 32 || n == 160 || n == 0x1680 || (0x2000 ≤ n && n ≤ 0x200A)
    || n == 0x2028 || n == 0x2029 || n == 0x202F || n == 0x205F || n == 0x3000 || n == 0xFEFF

/-- The method `trim` of a string. -/
def jsTrim (s : String) : String :=
  String.mk ((s.toList.dropWhile isJSWhiteSpace).reverse.dropWhile isJSWhiteSpace).reverse

/-- Upper-case hexadecimal digit. -/
def hexDigit (n : Nat) : Char :=
  if n < 10 then Char.ofNat (48 + n) else Char.ofNat (55 + n)

/-- Percent-encoding of one byte. -/
def pctByte (b : Nat) : List Char :=
  ['%', hexDigit (b / 16), hexDigit (b % 16)]

/-- UTF-8 encoding of a code point. -/
def utf8Bytes (n : Nat) : List Nat :=
  if n < 0x80 then [n]
  else if n < 0x800 then [0xC0 + n / 64, 0x80 + n % 64]
  else if n < 0x10000 then [0xE0 + n / 4096, 0x80 + n / 64 % 64, 0x80 + n % 64]
  else [0xF0 + n / 262144, 0x80 + n / 4096 % 64, 0x80 + n / 64 % 64, 0x80 + n % 64]

/-- Characters that `encodeURIComponent` leaves as they are: letters, digits and
the marks `- _ . ! ~ * ( )` and the apostrophe. -/
def uriUnreserved (c : Char) : Bool :=
  c.isAlphanum || [45, 95, 46, 33, 126, 42, 39, 40, 41].contains c.toNat

/-- The global function `encodeURIComponent` on a well-formed string. -/
def encodeURIComponent (s : String) : String :=
  String.mk (s.toList.flatMap fun c =>
    if uriUnreserved c then [c] else (utf8Bytes c.toNat).flatMap pctByte)

/-! ## Network -/

/-- One call of `fetch`: method, path below the base address `API`, and the fields of the
JSON body of a POST. -/
structure Request where
  method : String
  path : String
  body : Option (List (String × String)) := none
  deriving DecidableEq, Repr

/-- What `fetch` followed by `res.json()` delivers: the promise of `fetch` rejects with a
message, or a response arrives with a status and a body that parses to `some d` or does not
parse (`none`). -/
inductive HttpResult
  | failed (msg : String)
  | response (status : Nat) (body : Option Data)
  deriving DecidableEq, Repr

/-- The remote service with the transport in front of it. -/
abbrev Net := Request → HttpResult

/-- The flag `res.ok`: the status is in the range 200 to 299. -/
def statusOk (status : Nat) : Bool :=
  200 ≤ status && status ≤ 299

/-! ## State -/

/-- The three classes `b-good`, `b-warn`, `b-bad` of the node `stateBadge`. -/
structure Badge where
  good : Bool
  warn : Bool
  bad : Bool
  deriving DecidableEq, Repr

/-- The rendered snapshot: text of `kvId`, `kvType`, `kvCity`, `kvTel`, `stateText` and the
classes of `stateBadge`. -/
structure View where
  kvId : String
  kvType : String
  kvCity : String
  kvTel : String
  stateText : String
  badge : Badge
  deriving DecidableEq, Repr

/-- One notification appended to the node `toasts`. -/
structure Toast where
  type : String
  title : String
  msg : String
  deriving DecidableEq, Repr

/-- The entry of `localStorage` under `RECENT_KEY`, seen through `JSON.parse`: no entry, the
empty text, a text that does not parse, the text of a value that is not an array, or the
text of an array of identifiers. -/
inductive Stored
  | missing
  | blank
  | unparsable
  | notArray
  | array (ids : List String)
  deriving DecidableEq, Repr

/-- Content of the node `recentList`: the explanatory line, or one item per identifier. -/
inductive RecentDom
  | placeholder
  | items (ids : List String)
  deriving DecidableEq, Repr

/-- The classes `ok` and `bad` of the node `apiDot`. -/
structure ApiDot where
  ok : Bool
  bad : Bool
  deriving DecidableEq, Repr

/-- Everything the session layer reads or writes: the two script variables, the persisted
entry, the nodes of the document, and on the side of the host the running interval timers
(`intervals`, with the counter `timerSeq` handles are drawn from) and the pending one-shot
refreshes scheduled by the telemetry handler (`timeouts`, each holding its vehicle id). The
last three fields are traces kept for the statements below: the requests issued, and the
arguments of every call of `fetchVehicle` and of `addRecent`, oldest first. -/
structure State where
  currentVehicleId : JSVal
  autoTimer : Option Nat
  storage : Stored
  view : View
  recentList : RecentDom
  toasts : List Toast
  vehicleId : String
  telVehicleId : String
  regType : String
  regCity : String
  actionCity : String
  apiDot : ApiDot
  btnAutoText : String
  refreshHint : String
  apiUrl : String
  intervals : List Nat
  timerSeq : Nat
  timeouts : List String
  requests : List Request
  fetchCalls : List JSVal
  addRecentCalls : List JSVal
  deriving DecidableEq, Repr

/-! ## Helpers of the page -/

/-- The base address `API` (line 2); request paths are kept relative to it. -/
def API : String := "http://localhost:8080"

/-- Function `toast` (lines 7-21). -/
def toast (type title msg : String) (s : State) : State :=
  { s with toasts := s.toasts ++ [{ type := type, title := title, msg := msg }] }

/-- Function `setApiStatus` (lines 23-27). -/
def setApiStatus (ok : Bool) (s : State) : State :=
  { s with apiDot := if ok then { ok := true, bad := false } else { ok := false, bad := true } }

/-- Message of the failure raised for a response that is not `ok`:
`data.error || "HTTP " + status`. -/
def errorMessage (data : Data) (status : Nat) : String :=
  data.error.orElse ("HTTP " ++ toString status)

/-- Function `getJSON` (lines 29-34). -/
def getJSON (net : Net) (path : String) (s : State) : Except String Data × State :=
  let req : Request := { method := "GET", path := path }
  let s := { s with requests := s.requests ++ [req] }
  match net req with
  | .failed msg => (.error msg, s)
  | .response status body =>
    let data := body.getD {}
    if !statusOk status then (.error (errorMessage data status), s)
    else (.ok data, s)

/-- Function `postJSON` (lines 36-45). -/
def postJSON (net : Net) (path : String) (body : List (String × String)) (s : State) :
    Except String Data × State :=
  let req : Request := { method := "POST", path := path, body := some body }
  let s := { s with requests := s.requests ++ [req] }
  match net req with
  | .failed msg => (.error msg, s)
  | .response status body =>
    let data := body.getD {}
    if !statusOk status then (.error (errorMessage data status), s)
    else (.ok data, s)

/-! ## Recent vehicles -/

/-- Function `loadRecent` (lines 65-70). -/
def loadRecent (s : State) : List String :=
  match s.storage with
  | .missing => []
  | .blank => []
  | .unparsable => []
  | .notArray => []
  | .array ids => ids

/-- Function `saveRecent` (lines 71-73). -/
def saveRecent (arr : List String) (s : State) : State :=
  { s with storage := .array (arr.take 10) }

/-- Function `renderRecent` (lines 81-117), without the click listeners of the items, which
are the handlers `recentUseClick` and `recentViewClick` below. -/
def renderRecent (s : State) : State :=
  let arr := loadRecent s
  if arr.length = 0 then { s with recentList := .placeholder }
  else { s with recentList := .items arr }

/-- Function `addRecent` (lines 74-80). -/
def addRecent (id : JSVal) (s : State) : State :=
  let s := { s with addRecentCalls := s.addRecentCalls ++ [id] }
  if !id.truthy then s
  else
    let arr := (loadRecent s).filter (fun x => JSVal.str x != id)
    let arr := id.toStr :: arr
    renderRecent (saveRecent arr s)

/-- Click handler of `btnClear` (lines 118-122). -/
def btnClearClick (s : State) : State :=
  let s := { s with storage := .missing }
  let s := renderRecent s
  toast "" "Cleared" "Recent list cleared." s

/-! ## Live view -/

/-- Function `setStateBadge` (lines 128-142). -/
def setStateBadge (state : JSVal) (w : View) : View :=
  let w := { w with badge := { good := false, warn := false, bad := false } }
  if !state.truthy then { w with stateText := "—" }
  else
    let w := { w with stateText := state.toStr }
    if state = .str "AVAILABLE" then { w with badge := { w.badge with good := true } }
    else if state = .str "IN_USE" ∨ state = .str "RESERVED" then
      { w with badge := { w.badge with warn := true } }
    else if state = .str "EMERGENCY_LOCK" then { w with badge := { w.badge with bad := true } }
    else { w with badge := { w.badge with warn := true } }

/-- The summary line `mini` of `setKV` (line 153). -/
def telemetryLine (tel : Telemetry) : String :=
  "lat=" ++ tel.latitude.fixedText ++ ", lon=" ++ tel.longitude.fixedText
    ++ ", batt=" ++ tel.batteryPercent.text ++ "%, temp=" ++ tel.temperatureC.text ++ "°C"

/-- Field access `v?.f` on a snapshot that may be `null`. -/
def optField (v : Option Data) (f : Data → JSVal) : JSVal :=
  match v with
  | none => .undefined
  | some d => f d

/-- Function `setKV` (lines 144-158); `none` is the argument `null`. -/
def setKV (v : Option Data) (w : View) : View :=
  let w := { w with kvId := (optField v Data.id).orElse "—" }
  let w := { w with kvType := (optField v Data.type).orElse "—" }
  let w := { w with kvCity := (optField v Data.city).orElse "—" }
  let tel := v.bind Data.telemetry
  let w := match tel with
    | none => { w with kvTel := "—" }
    | some tel => { w with kvTel := telemetryLine tel }
  setStateBadge (optField v Data.state) w

/-- Function `fetchVehicle` (lines 160-174). -/
def fetchVehicle (net : Net) (id : JSVal) (s : State) : Except String Unit × State :=
  let s := { s with fetchCalls := s.fetchCalls ++ [id] }
  if !id.truthy then (.error "Missing vehicle id", s)
  else
    let s := { s with currentVehicleId := id }
    match getJSON net ("/vehicle?id=" ++ encodeURIComponent id.toStr) s with
    | (.ok v, s) =>
      let s := { s with view := setKV (some v) s.view }
      let s := addRecent id s
      let s := toast "good" "Vehicle Loaded" ("State: " ++ v.state.toStr) s
      (.ok (), s)
    | (.error e, s) =>
      let s := { s with view := setKV none s.view }
      let s := { s with view := setStateBadge .null s.view }
      let s := toast "bad" "Fetch Failed" e s
      (.error e, s)

/-- Function `health` (lines 177-186). -/
def health (net : Net) (s : State) : Bool × State :=
  match getJSON net "/health" s with
  | (.ok _, s) => (true, setApiStatus true s)
  | (.error _, s) => (false, setApiStatus false s)

/-! ## Buttons -/

/-- Click handler of `btnRegister` (lines 200-217). -/
def btnRegisterClick (net : Net) (s : State) : State :=
  let type := s.regType
  let city := s.regCity
  match health net s with
  | (false, s) =>
    toast "bad" "Register Failed" "API not reachable. Start smartmove-api on port 8080." s
  | (true, s) =>
    match postJSON net "/vehicles" [("type", type), ("city", city)] s with
    | (.error e, s) => toast "bad" "Register Failed" e s
    | (.ok res, s) =>
      let s := { s with vehicleId := res.id.toInputValue }
      let s := { s with telVehicleId := res.id.toInputValue }
      let s := addRecent res.id s
      let s := toast "good" "Registered" "New vehicle id created." s
      match fetchVehicle net res.id s with
      | (.error e, s) => toast "bad" "Register Failed" e s
      | (.ok _, s) => s

/-- Click handler of `btnFetch` (lines 219-225). -/
def btnFetchClick (net : Net) (s : State) : State :=
  let id := jsTrim s.vehicleId
  if id = "" then toast "bad" "Missing ID" "Paste a vehicleId first." s
  else (fetchVehicle net (.str id) s).2

/-- Click handler of `btnReserve` (lines 227-238). -/
def btnReserveClick (net : Net) (s : State) : State :=
  let vehicleId := jsTrim s.vehicleId
  let city := s.actionCity
  if vehicleId = "" then toast "bad" "Missing ID" "Paste a vehicleId first." s
  else
    match postJSON net "/reserve" [("vehicleId", vehicleId), ("city", city)] s with
    | (.error e, s) => toast "bad" "Reserve Failed" e s
    | (.ok _, s) =>
      let s := toast "good" "Reserved" "Vehicle reserved." s
      match fetchVehicle net (.str vehicleId) s with
      | (.error e, s) => toast "bad" "Reserve Failed" e s
      | (.ok _, s) => s

/-- Click handler of `btnStart` (lines 240-251). -/
def btnStartClick (net : Net) (s : State) : State :=
  let vehicleId := jsTrim s.vehicleId
  let city := s.actionCity
  if vehicleId = "" then toast "bad" "Missing ID" "Paste a vehicleId first." s
  else
    match postJSON net "/start" [("vehicleId", vehicleId), ("city", city)] s with
    | (.error e, s) => toast "bad" "Start Failed" e s
    | (.ok _, s) =>
      let s := toast "good" "Rental Started" "Vehicle moved to IN_USE." s
      match fetchVehicle net (.str vehicleId) s with
      | (.error e, s) => toast "bad" "Start Failed" e s
      | (.ok _, s) => s

/-- Click handler of `btnEnd` (lines 253-263). -/
def btnEndClick (net : Net) (s : State) : State :=
  let vehicleId := jsTrim s.vehicleId
  if vehicleId = "" then toast "bad" "Missing ID" "Paste a vehicleId first." s
  else
    match postJSON net "/end" [("vehicleId", vehicleId)] s with
    | (.error e, s) => toast "bad" "End Failed" e s
    | (.ok _, s) =>
      let s := toast "good" "Rental Ended" "Vehicle ended and state updated." s
      match fetchVehicle net (.str vehicleId) s with
      | (.error e, s) => toast "bad" "End Failed" e s
      | (.ok _, s) => s

/-- Content of the telemetry form when `btnTelemetry` is clicked. The four numeric inputs are
given as the JSON text of what `parseFloat` and `parseInt` make of them; the three selects
are given by their `value`. -/
structure TelemetryForm where
  latitude : String
  longitude : String
  batteryPercent : String
  temperatureC : String
  helmet : String
  fault : String
  movementDetected : String
  deriving DecidableEq, Repr

/-- Click handler of `btnTelemetry` (lines 265-295). The delayed refresh is left with the
host as a pending timeout. -/
def btnTelemetryClick (net : Net) (form : TelemetryForm) (s : State) : State :=
  let vehicleId := jsTrim s.telVehicleId
  if vehicleId = "" then toast "bad" "Missing ID" "Paste a vehicleId first." s
  else
    let helmetPresent := form.helmet == "true"
    let fault := form.fault == "true"
    let movementDetected := form.movementDetected == "true"
    match postJSON net "/telemetry"
        [("vehicleId", vehicleId), ("latitude", form.latitude), ("longitude", form.longitude),
         ("batteryPercent", form.batteryPercent), ("temperatureC", form.temperatureC),
         ("helmetPresent", toString helmetPresent),
         ("movementDetected", toString movementDetected), ("fault", toString fault)] s with
    | (.error e, s) => toast "bad" "Telemetry Failed" e s
    | (.ok _, s) =>
      let s := toast "good" "Telemetry Sent" "Queued to backend telemetry worker." s
      { s with timeouts := s.timeouts ++ [vehicleId] }

/-- The callback given to `setTimeout` on line 291, for the pending timeout at position `i`:
the timeout is spent and the vehicle fetched, a failure being swallowed. -/
def telemetryRefresh (net : Net) (i : Nat) (s : State) : Option State :=
  match s.timeouts.get? i with
  | none => none
  | some vehicleId =>
    let s := { s with timeouts := s.timeouts.eraseIdx i }
    some (fetchVehicle net (.str vehicleId) s).2

/-- Click on the button `Use` of a rendered recent item (lines 105-109). -/
def recentUseClick (id : String) (s : State) : State :=
  let s := { s with vehicleId := id }
  let s := { s with telVehicleId := id }
  toast "good" "Selected" "Vehicle ID filled into forms." s

/-- Click on the button `View` of a rendered recent item (lines 110-113); a failure of the
fetch leaves the listener as a rejected promise nobody observes. -/
def recentViewClick (net : Net) (id : String) (s : State) : State :=
  let s := { s with vehicleId := id }
  (fetchVehicle net (.str id) s).2

/-! ## Auto-refresh -/

/-- Host function `setInterval`: registers a repeating timer and returns its handle, a
positive integer not handed out before. -/
def setInterval (s : State) : Nat × State :=
  let h := s.timerSeq + 1
  (h, { s with timerSeq := h, intervals := s.intervals ++ [h] })

/-- Host function `clearInterval`: cancels the timer with the given handle, if any. -/
def clearInterval (h : Option Nat) (s : State) : State :=
  match h with
  | none => s
  | some h => { s with intervals := s.intervals.filter (fun k => k != h) }

/-- The callback given to `setInterval` (lines 307-310): one tick. -/
def autoTick (net : Net) (s : State) : State :=
  if !s.currentVehicleId.truthy then s
  else (fetchVehicle net s.currentVehicleId s).2

/-- Truthiness of the variable `autoTimer`: `!!autoTimer`. -/
def timerTruthy : Option Nat → Bool
  | none => false
  | some h => h != 0

/-- Click handler of `btnAuto` (lines 298-315). -/
def btnAutoClick (s : State) : State :=
  let enabled := timerTruthy s.autoTimer
  if enabled then
    let s := clearInterval s.autoTimer s
    let s := { s with autoTimer := none }
    let s := { s with btnAutoText := "Enable Auto-Refresh" }
    let s := { s with refreshHint := "Auto-refresh: OFF" }
    toast "" "Auto-refresh" "Disabled." s
  else
    let (h, s) := setInterval s
    let s := { s with autoTimer := some h }
    let s := { s with btnAutoText := "Disable Auto-Refresh" }
    let s := { s with refreshHint := "Auto-refresh: ON (1.5s)" }
    toast "" "Auto-refresh" "Enabled (1.5s)." s

/-- The function `init` run at startup (lines 318-323). -/
def init (net : Net) (s : State) : State :=
  let s := { s with apiUrl := API }
  let s := renderRecent s
  match health net s with
  | (ok, s) =>
    toast (if ok then "good" else "bad") "API Status"
      (if ok then "Connected." else "Not reachable. Start smartmove-api.") s

/-! ## The page as a transition system -/

/-- What can happen to the page: the startup function running, a click on one of the
buttons or on a recent item, the user editing a form field, the host firing the interval
timer with handle `h`, or the host firing the pending timeout at position `i`. Each event
that reaches the network carries the answers the network gives during that handler. -/
inductive Event
  | startup (net : Net)
  | toggle
  | tick (h : Nat) (net : Net)
  | fetch (net : Net)
  | register (net : Net)
  | reserve (net : Net)
  | start (net : Net)
  | finish (net : Net)
  | clear
  | recentUse (id : String)
  | recentView (id : String) (net : Net)
  | telemetry (form : TelemetryForm) (net : Net)
  | timeout (i : Nat) (net : Net)
  | editVehicleId (text : String)
  | editTelVehicleId (text : String)
  | editForm (regType regCity actionCity : String)

/-- An event is a click on `btnAuto`. -/
def Event.isToggle : Event → Bool
  | .toggle => true
  | _ => false

/-- An event is a firing of an interval timer. -/
def Event.isTick : Event → Bool
  | .tick _ _ => true
  | _ => false

/-- The items currently shown in `recentList`. -/
def RecentDom.ids : RecentDom → List String
  | .placeholder => []
  | .items ids => ids

/-- One step of the page. The host fires a tick only for a timer in its table and a timeout
only while it is pending, and a recent item can be clicked only while it is shown; every
other event is always possible. -/
def step (e : Event) (s : State) : Option State :=
  match e with
  | .startup net => some (init net s)
  | .toggle => some (btnAutoClick s)
  | .tick h net => if s.intervals.contains h then some (autoTick net s) else none
  | .fetch net => some (btnFetchClick net s)
  | .register net => some (btnRegisterClick net s)
  | .reserve net => some (btnReserveClick net s)
  | .start net => some (btnStartClick net s)
  | .finish net => some (btnEndClick net s)
  | .clear => some (btnClearClick s)
  | .recentUse id => if s.recentList.ids.contains id then some (recentUseClick id s) else none
  | .recentView id net =>
    if s.recentList.ids.contains id then some (recentViewClick net id s) else none
  | .telemetry form net => some (btnTelemetryClick net form s)
  | .timeout i net => telemetryRefresh net i s
  | .editVehicleId text => some { s with vehicleId := text }
  | .editTelVehicleId text => some { s with telVehicleId := text }
  | .editForm t c a => some { s with regType := t, regCity := c, actionCity := a }

/-- Running a sequence of events; `none` when one of them is not possible. -/
def run : List Event → State → Option State
  | [], s => some s
  | e :: es, s => (step e s).bind (run es)

/-- The state right after the script has been loaded (lines 125-126): no vehicle is
selected, `autoTimer` is `null` and the host holds no interval timer of this page.
Persisted storage and the content of the document are whatever they are. -/
def Loaded (s : State) : Prop :=
  s.currentVehicleId = .null ∧ s.autoTimer = none ∧ s.intervals = []

/-- States the page can be in. -/
inductive Reachable : State → Prop
  | loaded (s : State) : Loaded s → Reachable s
  | step (e : Event) (s t : State) : Reachable s → step e s = some t → Reachable t

/-- A concrete freshly loaded page, used in the examples. -/
def State.fresh : State where
  currentVehicleId := .null
  autoTimer := none
  storage := .missing
  view := { kvId := "—", kvType := "—", kvCity := "—", kvTel := "—", stateText := "—",
            badge := { good := false, warn := false, bad := false } }
  recentList := .placeholder
  toasts := []
  vehicleId := ""
  telVehicleId := ""
  regType := "SCOOTER"
  regCity := "Paris"
  actionCity := "Paris"
  apiDot := { ok := false, bad := false }
  btnAutoText := "Enable Auto-Refresh"
  refreshHint := "Auto-refresh: OFF"
  apiUrl := ""
  intervals := []
  timerSeq := 0
  timeouts := []
  requests := []
  fetchCalls := []
  addRecentCalls := []

/-! ## Definitions used in the statements -/

/-- Running `addRecent` over a sequence of identifiers, first to last. -/
def addRecentAll (ids : List JSVal) (s : State) : State :=
  ids.foldl (fun st id => addRecent id st) s

/-- What `renderRecent` shows for a loaded list. -/
def shownFor (l : List String) : RecentDom :=
  if l.length = 0 then .placeholder else .items l

/-- Badge showing `b-good` only. -/
def Badge.isGood : Badge := { good := true, warn := false, bad := false }

/-- Badge showing `b-warn` only. -/
def Badge.isWarn : Badge := { good := false, warn := true, bad := false }

/-- Badge showing `b-bad` only. -/
def Badge.isBad : Badge := { good := false, warn := false, bad := true }

/-- Badge showing none of the three classes. -/
def Badge.isNone : Badge := { good := false, warn := false, bad := false }

/-- The state names that `setStateBadge` tells apart. -/
def knownStates : List String := ["AVAILABLE", "IN_USE", "RESERVED", "EMERGENCY_LOCK"]

/-- A service answering every request with status 500 and the body `{"error": ""}`. -/
def emptyErrorNet : Net :=
  fun _ => .response 500 (some { error := .str "" })

/-- A service answering every request with status 404 and the body
`{"error": "not found"}`. -/
def notFoundNet : Net :=
  fun _ => .response 404 (some { error := .str "not found" })

/-- The path `fetchVehicle` asks for. -/
def vehiclePath (id : JSVal) : String :=
  "/vehicle?id=" ++ encodeURIComponent id.toStr

/-- The state `fetchVehicle` hands to `getJSON`, after the request has been recorded. -/
def fetchStarted (id : JSVal) (s : State) : State :=
  { s with
    fetchCalls := s.fetchCalls ++ [id]
    currentVehicleId := id
    requests := s.requests ++ [{ method := "GET", path := vehiclePath id }] }

/-- The rendered snapshot with every field at its placeholder and no badge class. -/
def placeholderView : View where
  kvId := "—"
  kvType := "—"
  kvCity := "—"
  kvTel := "—"
  stateText := "—"
  badge := { good := false, warn := false, bad := false }

/-- The snapshot of the scooter `v1`, available in Metropolis. -/
def scooter : Data :=
  { id := .str "v1", type := .str "scooter", city := .str "Metropolis", state := .str "AVAILABLE" }

/-- The text the specification asks for in place of a snapshot field (section 4.4): the
field itself when it is a non-empty string, the placeholder otherwise. -/
def specFieldText : JSVal → String
  | .str x => if x = "" then "—" else x
  | .null => "—"
  | .undefined => "—"

/-- A coordinate in the summary line of the specification: rounded to four decimals when
numeric, as it prints otherwise. -/
def specCoordinate : TelVal → String
  | .num n => n.fixed4
  | .str x => x
  | .null => "null"
  | .undefined => "undefined"

/-- A raw reading in the summary line of the specification: printed as it is. -/
def specRaw : TelVal → String
  | .num n => n.shown
  | .str x => x
  | .null => "null"
  | .undefined => "undefined"

/-- The severity the specification assigns to a state (section 4.4, with every falsy value
counted as absent): `AVAILABLE` is good, `EMERGENCY_LOCK` is bad, every other non-empty
string, `IN_USE` and `RESERVED` among them, is warn, and an absent state has none. -/
def specSeverity : JSVal → Badge
  | .str x =>
    if x = "" then { good := false, warn := false, bad := false }
    else if x = "AVAILABLE" then { good := true, warn := false, bad := false }
    else if x = "EMERGENCY_LOCK" then { good := false, warn := false, bad := true }
    else { good := false, warn := true, bad := false }
  | .null => { good := false, warn := false, bad := false }
  | .undefined => { good := false, warn := false, bad := false }

/-- The projection of a snapshot to the rendered view as the specification describes it
(section 4.4), written without any of the rendering functions of the script: identifier,
type, city and state as text with the placeholder for what is missing, the telemetry as one
summary line or the placeholder, and the badge of the state. -/
def specView (v : Data) : View where
  kvId := specFieldText v.id
  kvType := specFieldText v.type
  kvCity := specFieldText v.city
  kvTel :=
    match v.telemetry with
    | none => "—"
    | some tel =>
      "lat=" ++ specCoordinate tel.latitude ++ ", lon=" ++ specCoordinate tel.longitude
        ++ ", batt=" ++ specRaw tel.batteryPercent ++ "%, temp=" ++ specRaw tel.temperatureC
        ++ "°C"
  stateText := specFieldText v.state
  badge := specSeverity v.state

/-- The snapshot of the scooter `v1` with the telemetry reading of the specification's
example: latitude 40.1234567, longitude -73.9, battery 87, temperature 21.5. -/
def trackedScooter : Data :=
  { id := .str "v1", type := .str "scooter", city := .str "Metropolis", state := .str "AVAILABLE",
    telemetry := some {
      latitude := .num { fixed4 := "40.1235", shown := "40.1234567" },
      longitude := .num { fixed4 := "-73.9000", shown := "-73.9" },
      batteryPercent := .num { fixed4 := "87.0000", shown := "87" },
      temperatureC := .num { fixed4 := "21.5000", shown := "21.5" } } }

/-- A service answering every request with status 200 and the scooter `v1` with its
telemetry. -/
def trackedNet : Net :=
  fun _ => .response 200 (some trackedScooter)

/-- A service answering every request with status 200 and the scooter `v1`. -/
def scooterNet : Net :=
  fun _ => .response 200 (some scooter)

/-- The part of the state the refresh scheduler lives in: the variable `autoTimer` and the
host's table of running interval timers. -/
def timers (s : State) : Option Nat × List Nat :=
  (s.autoTimer, s.intervals)

/-- The scheduler invariant: the host runs exactly the timer whose handle the page holds,
and a held handle is never 0. -/
def TimerInv (s : State) : Prop :=
  s.intervals = s.autoTimer.toList ∧ s.autoTimer ≠ some 0

/-- The state of a successful registration right before the chained fetch: both requests
issued, the new identifier written to the two form fields and added to the recent list, and
the notification `Registered` emitted. -/
def registered (res : Data) (s : State) : State :=
  toast "good" "Registered" "New vehicle id created."
    (addRecent res.id
      { setApiStatus true
          { s with requests := s.requests ++ [{ method := "GET", path := "/health" }] } with
        requests := s.requests ++ [{ method := "GET", path := "/health" }]
          ++ [{ method := "POST", path := "/vehicles",
                body := some [("type", s.regType), ("city", s.regCity)] }]
        vehicleId := res.id.toInputValue
        telVehicleId := res.id.toInputValue })

/-- A service on which registration succeeds: every POST is answered with the new
identifier `v1`, every GET with the scooter `v1`. -/
def registerNet : Net :=
  fun req => if req.method = "POST" then .response 201 (some { id := .str "v1" })
    else .response 200 (some scooter)

/-- A service that answers every GET with the scooter `v1` and refuses every POST with
status 503 and a body that does not parse. -/
def busyNet : Net :=
  fun req => if req.method = "POST" then .response 503 none
    else .response 200 (some scooter)

/-- A service on which every action succeeds and every vehicle lookup answers 404 with
`not found`. -/
def lostNet : Net :=
  fun req => if req.method = "POST" then .response 200 none
    else .response 404 (some { error := .str "not found" })

/-! ## Recent vehicles: lemmas -/

theorem truthy_eq_str {id : JSVal} (h : id.truthy = true) : ∃ x, id = .str x ∧ x ≠ "" := by
  cases id with
  | undefined => simp [JSVal.truthy] at h
  | null => simp [JSVal.truthy] at h
  | str x => exact ⟨x, rfl, by simpa [JSVal.truthy] using h⟩

theorem str_bne (y x : String) : (JSVal.str y != JSVal.str x) = !decide (y = x) := by
  by_cases h : y = x <;> simp [h]

theorem storage_renderRecent (s : State) : (renderRecent s).storage = s.storage := by
  unfold renderRecent
  dsimp only
  split <;> rfl

theorem loadRecent_renderRecent (s : State) : loadRecent (renderRecent s) = loadRecent s := by
  simp only [loadRecent, storage_renderRecent]

theorem recentList_renderRecent (s : State) :
    (renderRecent s).recentList = shownFor (loadRecent s) := by
  unfold renderRecent shownFor
  dsimp only
  split <;> rfl

theorem recentList_addRecent_str (x : String) (s : State) (hx : x ≠ "") :
    (addRecent (.str x) s).recentList = shownFor (loadRecent (addRecent (.str x) s)) := by
  have h : addRecent (.str x) s = renderRecent (saveRecent
      ((JSVal.str x).toStr :: (loadRecent { s with addRecentCalls := s.addRecentCalls ++ [.str x] }).filter
        (fun y => JSVal.str y != JSVal.str x))
      { s with addRecentCalls := s.addRecentCalls ++ [.str x] }) := by
    simp [addRecent, JSVal.truthy, hx]
  rw [h, recentList_renderRecent, loadRecent_renderRecent]

theorem storage_addRecent_falsy (id : JSVal) (s : State) (h : id.truthy = false) :
    (addRecent id s).storage = s.storage := by
  simp [addRecent, h]

theorem storage_addRecent_str (x : String) (s : State) (hx : x ≠ "") :
    (addRecent (.str x) s).storage
      = .array ((x :: (loadRecent s).filter (fun y => y ≠ x)).take 10) := by
  simp [addRecent, JSVal.truthy, hx, storage_renderRecent, saveRecent, JSVal.toStr, loadRecent,
    str_bne]

theorem loadRecent_addRecent_str (x : String) (s : State) (hx : x ≠ "") :
    loadRecent (addRecent (.str x) s)
      = (x :: (loadRecent s).filter (fun y => y ≠ x)).take 10 := by
  have h := storage_addRecent_str x s hx
  simp only [loadRecent, h]

theorem loadRecent_addRecent_falsy (id : JSVal) (s : State) (h : id.truthy = false) :
    loadRecent (addRecent id s) = loadRecent s := by
  have h := storage_addRecent_falsy id s h
  simp only [loadRecent, h]

/-- The list operation of `addRecent` applied twice gives the same list as applied once. -/
theorem mru_twice (x : String) (l : List String) :
    (x :: ((x :: l.filter (fun y => y ≠ x)).take 10).filter (fun y => y ≠ x)).take 10
      = (x :: l.filter (fun y => y ≠ x)).take 10 := by
  have hfix : ((l.filter (fun y => y ≠ x)).take 9).filter (fun y => y ≠ x)
      = (l.filter (fun y => y ≠ x)).take 9 := by
    apply List.filter_eq_self.mpr
    intro a ha
    have := List.mem_of_mem_take ha
    simpa using (List.mem_filter.mp this).2
  have h1 : (x :: l.filter (fun y => y ≠ x)).take 10
      = x :: (l.filter (fun y => y ≠ x)).take 9 := rfl
  rw [h1]
  have h2 : (x :: (l.filter (fun y => y ≠ x)).take 9).filter (fun y => y ≠ x)
      = ((l.filter (fun y => y ≠ x)).take 9).filter (fun y => y ≠ x) := by
    simp
  rw [h2, hfix]
  show x :: ((l.filter (fun y => y ≠ x)).take 9).take 9 = _
  rw [List.take_take]
  simp

/-- One `addRecent` keeps a duplicate-free list of at most ten entries in that shape. -/
theorem addRecent_keeps (id : JSVal) (s : State)
    (h : (loadRecent s).Nodup ∧ (loadRecent s).length ≤ 10) :
    (loadRecent (addRecent id s)).Nodup ∧ (loadRecent (addRecent id s)).length ≤ 10 := by
  by_cases ht : id.truthy = true
  · obtain ⟨x, rfl, hx⟩ := truthy_eq_str ht
    rw [loadRecent_addRecent_str x s hx]
    refine ⟨?_, ?_⟩
    · apply List.Nodup.sublist (List.take_sublist _ _)
      rw [List.nodup_cons]
      refine ⟨?_, h.1.filter _⟩
      simp
    · simp [List.length_take]
  · have hf : id.truthy = false := by simpa using ht
    rw [loadRecent_addRecent_falsy id s hf]
    exact h

theorem addRecentAll_keeps (ids : List JSVal) (s : State)
    (h : (loadRecent s).Nodup ∧ (loadRecent s).length ≤ 10) :
    (loadRecent (addRecentAll ids s)).Nodup ∧ (loadRecent (addRecentAll ids s)).length ≤ 10 := by
  induction ids generalizing s with
  | nil => exact h
  | cons id rest ih => exact ih (addRecent id s) (addRecent_keeps id s h)

theorem addRecentAll_append (pre post : List JSVal) (s : State) :
    addRecentAll (pre ++ post) s = addRecentAll post (addRecentAll pre s) := by
  simp [addRecentAll, List.foldl_append]

theorem loadRecent_addRecentAll_falsy (post : List JSVal) (s : State)
    (h : ∀ j ∈ post, j.truthy = false) :
    loadRecent (addRecentAll post s) = loadRecent s := by
  induction post generalizing s with
  | nil => rfl
  | cons j rest ih =>
    have hj := h j (List.mem_cons_self _ _)
    have := ih (addRecent j s) (fun k hk => h k (List.mem_cons_of_mem _ hk))
    rw [show addRecentAll (j :: rest) s = addRecentAll rest (addRecent j s) from rfl, this]
    exact loadRecent_addRecent_falsy j s hj

/-! ## Recent vehicles: statements -/

/-- C1: starting from an empty or cleared persisted recent list, after any finite sequence
of `addRecent` calls (falsy identifiers included) `loadRecent` returns a list without
duplicates, of length at most 10, whose first entry is the last non-empty identifier added,
if there was one. -/
theorem C1_recent_list_invariant (s : State) (ids : List JSVal)
    (h : s.storage = .missing ∨ s.storage = .array []) :
    (loadRecent (addRecentAll ids s)).Nodup ∧
    (loadRecent (addRecentAll ids s)).length ≤ 10 ∧
    ∀ (pre post : List JSVal) (id : JSVal), ids = pre ++ id :: post → id.truthy = true →
      (∀ j ∈ post, j.truthy = false) →
      (loadRecent (addRecentAll ids s)).head? = some id.toStr := by
  have h0 : (loadRecent s).Nodup ∧ (loadRecent s).length ≤ 10 := by
    rcases h with h | h <;> simp [loadRecent, h]
  refine ⟨(addRecentAll_keeps ids s h0).1, (addRecentAll_keeps ids s h0).2, ?_⟩
  intro pre post id hids ht hpost
  obtain ⟨x, rfl, hx⟩ := truthy_eq_str ht
  subst hids
  rw [addRecentAll_append]
  rw [show addRecentAll (JSVal.str x :: post) (addRecentAll pre s)
      = addRecentAll post (addRecent (.str x) (addRecentAll pre s)) from rfl]
  rw [loadRecent_addRecentAll_falsy post _ hpost, loadRecent_addRecent_str x _ hx]
  rfl

/-- C1 on a concrete run: from a cleared list, adding `a`, `b`, `null`, `a`, the empty
string. -/
theorem C1_recent_list_invariant_witness :
    (loadRecent (addRecentAll [.str "a", .str "b", .null, .str "a", .str ""]
        (btnClearClick State.fresh))).Nodup ∧
    (loadRecent (addRecentAll [.str "a", .str "b", .null, .str "a", .str ""]
        (btnClearClick State.fresh))).length ≤ 10 ∧
    (loadRecent (addRecentAll [.str "a", .str "b", .null, .str "a", .str ""]
        (btnClearClick State.fresh))).head? = some "a" :=
  have h := C1_recent_list_invariant (btnClearClick State.fresh)
    [.str "a", .str "b", .null, .str "a", .str ""] (Or.inl rfl)
  ⟨h.1, h.2.1, h.2.2 [.str "a", .str "b", .null] [.str ""] (.str "a") rfl rfl
    (by intro j hj; simp at hj; subst hj; rfl)⟩

/-- C2: `addRecent` is idempotent. From any persisted entry and for any identifier, calling
it twice in a row leaves the same persisted list (and the same rendered list) as calling it
once; a non-empty identifier is at position 0 after one call and after two. -/
theorem C2_addRecent_idempotent (s : State) (id : JSVal) :
    (addRecent id (addRecent id s)).storage = (addRecent id s).storage ∧
    (addRecent id (addRecent id s)).recentList = (addRecent id s).recentList ∧
    (id.truthy = true →
      (loadRecent (addRecent id s)).head? = some id.toStr ∧
      (loadRecent (addRecent id (addRecent id s))).head? = some id.toStr) := by
  by_cases ht : id.truthy = true
  · obtain ⟨x, rfl, hx⟩ := truthy_eq_str ht
    have hs : (addRecent (.str x) (addRecent (.str x) s)).storage
        = (addRecent (.str x) s).storage := by
      rw [storage_addRecent_str x _ hx, loadRecent_addRecent_str x s hx, mru_twice,
        storage_addRecent_str x s hx]
    have hl : loadRecent (addRecent (.str x) (addRecent (.str x) s))
        = loadRecent (addRecent (.str x) s) := by
      simp only [loadRecent, hs]
    refine ⟨hs, ?_, ?_⟩
    · rw [recentList_addRecent_str x _ hx, recentList_addRecent_str x s hx, hl]
    · intro _
      rw [hl, loadRecent_addRecent_str x s hx]
      exact ⟨rfl, rfl⟩
  · have hf : id.truthy = false := by simpa using ht
    refine ⟨?_, ?_, fun h => absurd h ht⟩
    · rw [storage_addRecent_falsy id _ hf]
    · simp [addRecent, hf]

/-- C2 on a concrete list: `a` added twice to the persisted list `b, a, c`. -/
theorem C2_addRecent_idempotent_witness :
    (addRecent (.str "a")
        (addRecent (.str "a") { State.fresh with storage := .array ["b", "a", "c"] })).storage
      = (addRecent (.str "a") { State.fresh with storage := .array ["b", "a", "c"] }).storage ∧
    (loadRecent (addRecent (.str "a")
        { State.fresh with storage := .array ["b", "a", "c"] })).head? = some "a" :=
  have h := C2_addRecent_idempotent { State.fresh with storage := .array ["b", "a", "c"] }
    (.str "a")
  ⟨h.1, (h.2.2 rfl).1⟩

/-! ## State badge -/

/-- C3, as the claim states it, fails at the empty string: it is a non-null string other
than the four known names, yet `setStateBadge` gives it no severity and the placeholder
text instead of `warn`. -/
theorem C3_empty_state_not_warn :
    JSVal.str "" ≠ JSVal.null ∧ JSVal.str "" ≠ JSVal.undefined ∧ "" ∉ knownStates ∧
    (setStateBadge (.str "") State.fresh.view).badge = Badge.isNone ∧
    (setStateBadge (.str "") State.fresh.view).badge ≠ Badge.isWarn ∧
    (setStateBadge (.str "") State.fresh.view).stateText = "—" := by
  decide

/-- C3 (amended): the classification done by `setStateBadge` depends on the state value
only and always ends in exactly one of good, warn, bad, none. `AVAILABLE` gives good,
`IN_USE` and `RESERVED` give warn, `EMERGENCY_LOCK` gives bad, every other non-empty string
gives warn and is shown as the text, and every falsy value (`null`, `undefined`, the empty
string) gives no severity with the text placeholder. -/
theorem C3_state_badge_classification (state : JSVal) (w : View) :
    (state = .str "AVAILABLE" → (setStateBadge state w).badge = Badge.isGood) ∧
    (state = .str "IN_USE" ∨ state = .str "RESERVED" →
      (setStateBadge state w).badge = Badge.isWarn) ∧
    (state = .str "EMERGENCY_LOCK" → (setStateBadge state w).badge = Badge.isBad) ∧
    (∀ x, state = .str x → x ≠ "" → x ∉ knownStates →
      (setStateBadge state w).badge = Badge.isWarn) ∧
    (state.truthy = true → (setStateBadge state w).stateText = state.toStr) ∧
    (state.truthy = false →
      (setStateBadge state w).badge = Badge.isNone ∧ (setStateBadge state w).stateText = "—") ∧
    ((setStateBadge state w).badge = Badge.isGood ∨ (setStateBadge state w).badge = Badge.isWarn ∨
      (setStateBadge state w).badge = Badge.isBad ∨ (setStateBadge state w).badge = Badge.isNone) ∧
    (∀ w2, (setStateBadge state w2).badge = (setStateBadge state w).badge ∧
      (setStateBadge state w2).stateText = (setStateBadge state w).stateText) := by
  refine ⟨?_, ?_, ?_, ?_, ?_, ?_, ?_, ?_⟩
  · rintro rfl
    simp [setStateBadge, JSVal.truthy, Badge.isGood]
  · rintro (rfl | rfl) <;> simp [setStateBadge, JSVal.truthy, Badge.isWarn]
  · rintro rfl
    simp [setStateBadge, JSVal.truthy, Badge.isBad]
  · rintro x rfl hx hk
    simp [knownStates] at hk
    simp [setStateBadge, JSVal.truthy, Badge.isWarn, hx, hk]
  · intro ht
    simp only [setStateBadge, ht]
    simp only [Bool.not_true, Bool.false_eq_true, ↓reduceIte]
    split_ifs <;> rfl
  · intro hf
    simp [setStateBadge, hf, Badge.isNone]
  · simp only [setStateBadge, Badge.isGood, Badge.isWarn, Badge.isBad, Badge.isNone]
    split_ifs <;> simp
  · intro w2
    simp only [setStateBadge]
    split_ifs <;> exact ⟨rfl, rfl⟩

/-- C3 (amended) on the state `SOME_UNKNOWN`. -/
theorem C3_state_badge_classification_witness :
    (setStateBadge (.str "SOME_UNKNOWN") State.fresh.view).badge = Badge.isWarn :=
  (C3_state_badge_classification (.str "SOME_UNKNOWN") State.fresh.view).2.2.2.1
    "SOME_UNKNOWN" rfl (by decide) (by decide)

/-! ## Remote client -/

/-- The outcome of `getJSON` does not depend on the state of the page. -/
theorem getJSON_fst (net : Net) (path : String) (s t : State) :
    (getJSON net path s).1 = (getJSON net path t).1 := by
  unfold getJSON
  dsimp only
  split
  · rfl
  · split <;> rfl

/-- The only trace `getJSON` leaves on the page is the request it issued. -/
theorem getJSON_snd (net : Net) (path : String) (s : State) :
    (getJSON net path s).2
      = { s with requests := s.requests ++ [{ method := "GET", path := path }] } := by
  unfold getJSON
  dsimp only
  split
  · rfl
  · split <;> rfl

/-- The outcome of `postJSON` does not depend on the state of the page. -/
theorem postJSON_fst (net : Net) (path : String) (body : List (String × String))
    (s t : State) : (postJSON net path body s).1 = (postJSON net path body t).1 := by
  unfold postJSON
  dsimp only
  split
  · rfl
  · split <;> rfl

/-- The only trace `postJSON` leaves on the page is the request it issued. -/
theorem postJSON_snd (net : Net) (path : String) (body : List (String × String))
    (s : State) :
    (postJSON net path body s).2
      = { s with requests := s.requests
            ++ [{ method := "POST", path := path, body := some body }] } := by
  unfold postJSON
  dsimp only
  split
  · rfl
  · split <;> rfl

/-- C7, as the claim states it, fails when the body carries an empty error field: the field
is present, yet the message raised is the generic `HTTP 500` and not the field. -/
theorem C7_empty_error_field_ignored :
    statusOk 500 = false ∧
    ({ error := .str "" } : Data).error ≠ JSVal.undefined ∧
    (getJSON emptyErrorNet "/health" State.fresh).1 = .error "HTTP 500" ∧
    (postJSON emptyErrorNet "/end" [("vehicleId", "v1")] State.fresh).1 = .error "HTTP 500" ∧
    (getJSON emptyErrorNet "/health" State.fresh).1
      ≠ .error ({ error := .str "" } : Data).error.toStr := by
  decide

/-- C7 (amended): `getJSON` and `postJSON` each classify the response to their own request.
For a response with status `status` whose body parses to the object `d`, or does not parse
and is replaced by `{}`, the function returns `d` without raising when the status is a
success status; otherwise it raises, with the error field of `d` as message when that field
is a non-empty string, and with `HTTP` followed by the status when the field is absent,
`null` or the empty string, in particular when the body did not parse. The answer to the
GET (`gStatus`, `gBody`) and the answer to the POST (`pStatus`, `pBody`) are independent
of each other. -/
theorem C7_remote_client_outcome (net : Net) (path : String) (body : List (String × String))
    (s : State) (gStatus pStatus : Nat) (gBody pBody : Option Data)
    (hget : net { method := "GET", path := path } = .response gStatus gBody)
    (hpost : net { method := "POST", path := path, body := some body }
      = .response pStatus pBody) :
    ((statusOk gStatus = true → (getJSON net path s).1 = .ok (gBody.getD {})) ∧
      (statusOk gStatus = false → ∀ m, (gBody.getD {}).error = .str m → m ≠ "" →
        (getJSON net path s).1 = .error m) ∧
      (statusOk gStatus = false → (gBody.getD {}).error.truthy = false →
        (getJSON net path s).1 = .error ("HTTP " ++ toString gStatus)) ∧
      (statusOk gStatus = false → gBody = none →
        (getJSON net path s).1 = .error ("HTTP " ++ toString gStatus))) ∧
    ((statusOk pStatus = true → (postJSON net path body s).1 = .ok (pBody.getD {})) ∧
      (statusOk pStatus = false → ∀ m, (pBody.getD {}).error = .str m → m ≠ "" →
        (postJSON net path body s).1 = .error m) ∧
      (statusOk pStatus = false → (pBody.getD {}).error.truthy = false →
        (postJSON net path body s).1 = .error ("HTTP " ++ toString pStatus)) ∧
      (statusOk pStatus = false → pBody = none →
        (postJSON net path body s).1 = .error ("HTTP " ++ toString pStatus))) := by
  refine ⟨⟨?_, ?_, ?_, ?_⟩, ⟨?_, ?_, ?_, ?_⟩⟩
  · intro hok
    simp [getJSON, hget, hok]
  · intro hok m hm hne
    simp [getJSON, hget, hok, errorMessage, JSVal.orElse, hm, JSVal.truthy, JSVal.toStr, hne]
  · intro hok hf
    simp [getJSON, hget, hok, errorMessage, JSVal.orElse, hf]
  · intro hok hnone
    subst hnone
    simp [getJSON, hget, hok, errorMessage, JSVal.orElse, JSVal.truthy]
  · intro hok
    simp [postJSON, hpost, hok]
  · intro hok m hm hne
    simp [postJSON, hpost, hok, errorMessage, JSVal.orElse, hm, JSVal.truthy, JSVal.toStr, hne]
  · intro hok hf
    simp [postJSON, hpost, hok, errorMessage, JSVal.orElse, hf]
  · intro hok hnone
    subst hnone
    simp [postJSON, hpost, hok, errorMessage, JSVal.orElse, JSVal.truthy]

/-- C7 (amended) on services that answer the GET and the POST of one path differently: on
`lostNet` the GET raises `not found` while the POST returns the empty structure, and on
`busyNet` the GET returns the scooter while the POST, whose body does not parse, raises
`HTTP 503`. -/
theorem C7_remote_client_outcome_witness :
    ((getJSON lostNet "/vehicle?id=v1" State.fresh).1 = .error "not found" ∧
      (postJSON lostNet "/vehicle?id=v1" [("vehicleId", "v1")] State.fresh).1 = .ok {}) ∧
    ((getJSON busyNet "/reserve" State.fresh).1 = .ok scooter ∧
      (postJSON busyNet "/reserve" [("vehicleId", "v1")] State.fresh).1
        = .error "HTTP 503") :=
  have h := C7_remote_client_outcome lostNet "/vehicle?id=v1" [("vehicleId", "v1")]
    State.fresh 404 200 (some { error := .str "not found" }) none rfl rfl
  have k := C7_remote_client_outcome busyNet "/reserve" [("vehicleId", "v1")]
    State.fresh 200 503 (some scooter) none rfl rfl
  ⟨⟨h.1.2.1 (by decide) "not found" rfl (by decide), h.2.1 (by decide)⟩,
    ⟨k.1.1 (by decide), k.2.2.2.2 (by decide) rfl⟩⟩

/-! ## Live view: `fetchVehicle` -/

/-- C4: called with an empty or absent identifier, `fetchVehicle` fails with the local
message `Missing vehicle id`; it issues no request and leaves `currentVehicleId`, the
rendered snapshot, the recent list and the notifications as they were (the whole state is
unchanged, apart from the trace of the call itself). -/
theorem C4_fetchVehicle_missing_id (net : Net) (id : JSVal) (s : State)
    (h : id.truthy = false) :
    (fetchVehicle net id s).1 = .error "Missing vehicle id" ∧
    (fetchVehicle net id s).2 = { s with fetchCalls := s.fetchCalls ++ [id] } ∧
    (fetchVehicle net id s).2.requests = s.requests ∧
    (fetchVehicle net id s).2.currentVehicleId = s.currentVehicleId ∧
    (fetchVehicle net id s).2.view = s.view ∧
    (fetchVehicle net id s).2.storage = s.storage ∧
    (fetchVehicle net id s).2.recentList = s.recentList ∧
    (fetchVehicle net id s).2.toasts = s.toasts := by
  simp [fetchVehicle, h]

/-- C4 on the empty string, with a vehicle already selected. -/
theorem C4_fetchVehicle_missing_id_witness :
    (fetchVehicle notFoundNet (.str "") { State.fresh with currentVehicleId := .str "v1" }).1
      = .error "Missing vehicle id" ∧
    (fetchVehicle notFoundNet (.str "")
      { State.fresh with currentVehicleId := .str "v1" }).2.currentVehicleId = .str "v1" ∧
    (fetchVehicle notFoundNet (.str "")
      { State.fresh with currentVehicleId := .str "v1" }).2.requests = [] :=
  have h := C4_fetchVehicle_missing_id notFoundNet (.str "")
    { State.fresh with currentVehicleId := .str "v1" } rfl
  ⟨h.1, h.2.2.2.1, h.2.2.1⟩

theorem getJSON_eq (net : Net) (path : String) (s t : State) (r : Except String Data)
    (h : (getJSON net path t).1 = r) :
    getJSON net path s
      = (r, { s with requests := s.requests ++ [{ method := "GET", path := path }] }) := by
  apply Prod.ext
  · rw [getJSON_fst net path s t]
    exact h
  · exact getJSON_snd net path s

theorem postJSON_eq (net : Net) (path : String) (body : List (String × String)) (s t : State)
    (r : Except String Data) (h : (postJSON net path body t).1 = r) :
    postJSON net path body s
      = (r, { s with requests := s.requests
            ++ [{ method := "POST", path := path, body := some body }] }) := by
  apply Prod.ext
  · rw [postJSON_fst net path body s t]
    exact h
  · exact postJSON_snd net path body s

/-- What `fetchVehicle` does when the request succeeds. -/
theorem fetchVehicle_ok (net : Net) (id : JSVal) (s t : State) (v : Data)
    (hid : id.truthy = true) (hv : (getJSON net (vehiclePath id) t).1 = .ok v) :
    fetchVehicle net id s
      = (.ok (), toast "good" "Vehicle Loaded" ("State: " ++ v.state.toStr)
          (addRecent id
            { fetchStarted id s with view := setKV (some v) (fetchStarted id s).view })) := by
  unfold fetchVehicle
  simp only [hid, Bool.not_true, Bool.false_eq_true, ↓reduceIte]
  rw [show "/vehicle?id=" ++ encodeURIComponent id.toStr = vehiclePath id from rfl,
    getJSON_eq net _ _ t (.ok v) hv]
  rfl

/-- What `fetchVehicle` does when the request fails. -/
theorem fetchVehicle_error (net : Net) (id : JSVal) (s t : State) (m : String)
    (hid : id.truthy = true) (hm : (getJSON net (vehiclePath id) t).1 = .error m) :
    fetchVehicle net id s
      = (.error m, toast "bad" "Fetch Failed" m
          { fetchStarted id s with
            view := setStateBadge .null (setKV none (fetchStarted id s).view) }) := by
  unfold fetchVehicle
  simp only [hid, Bool.not_true, Bool.false_eq_true, ↓reduceIte]
  rw [show "/vehicle?id=" ++ encodeURIComponent id.toStr = vehiclePath id from rfl,
    getJSON_eq net _ _ t (.error m) hm]
  rfl

theorem orElse_dash (x : JSVal) : x.orElse "—" = specFieldText x := by
  cases x with
  | undefined => rfl
  | null => rfl
  | str y =>
    by_cases hy : y = ""
    · simp [JSVal.orElse, JSVal.truthy, specFieldText, hy]
    · simp [JSVal.orElse, JSVal.truthy, specFieldText, hy, JSVal.toStr]

theorem fixedText_eq (x : TelVal) : x.fixedText = specCoordinate x := by
  cases x <;> rfl

theorem text_eq (x : TelVal) : x.text = specRaw x := by
  cases x <;> rfl

theorem setStateBadge_stateText (state : JSVal) (w : View) :
    (setStateBadge state w).stateText = specFieldText state := by
  cases state with
  | undefined => rfl
  | null => rfl
  | str y =>
    by_cases hy : y = ""
    · simp [setStateBadge, JSVal.truthy, specFieldText, hy]
    · have ht : (JSVal.str y).truthy = true := by simpa [JSVal.truthy] using hy
      simp only [setStateBadge, ht, specFieldText, hy, Bool.not_true, Bool.false_eq_true,
        ↓reduceIte, JSVal.toStr]
      split_ifs <;> rfl

theorem setStateBadge_badge (state : JSVal) (w : View) :
    (setStateBadge state w).badge = specSeverity state := by
  cases state with
  | undefined => rfl
  | null => rfl
  | str y =>
    by_cases hy : y = ""
    · simp [setStateBadge, JSVal.truthy, specSeverity, hy]
    · have ht : (JSVal.str y).truthy = true := by simpa [JSVal.truthy] using hy
      simp only [setStateBadge, ht, specSeverity, hy, Bool.not_true, Bool.false_eq_true,
        ↓reduceIte, JSVal.str.injEq]
      split_ifs <;> simp_all

theorem setStateBadge_rest (state : JSVal) (w : View) :
    (setStateBadge state w).kvId = w.kvId ∧ (setStateBadge state w).kvType = w.kvType ∧
    (setStateBadge state w).kvCity = w.kvCity ∧ (setStateBadge state w).kvTel = w.kvTel := by
  simp only [setStateBadge]
  split_ifs <;> exact ⟨rfl, rfl, rfl, rfl⟩

theorem view_ext (a b : View) (h1 : a.kvId = b.kvId) (h2 : a.kvType = b.kvType)
    (h3 : a.kvCity = b.kvCity) (h4 : a.kvTel = b.kvTel) (h5 : a.stateText = b.stateText)
    (h6 : a.badge = b.badge) : a = b := by
  cases a
  cases b
  simp_all

/-- The rendering of a snapshot by `setKV` is the projection the specification describes. -/
theorem setKV_some (v : Data) (w : View) : setKV (some v) w = specView v := by
  unfold setKV
  dsimp only [optField, Option.bind]
  apply view_ext
  · rw [(setStateBadge_rest _ _).1]
    cases v.telemetry <;> exact orElse_dash v.id
  · rw [(setStateBadge_rest _ _).2.1]
    cases v.telemetry <;> exact orElse_dash v.type
  · rw [(setStateBadge_rest _ _).2.2.1]
    cases v.telemetry <;> exact orElse_dash v.city
  · rw [(setStateBadge_rest _ _).2.2.2]
    unfold specView
    cases v.telemetry with
    | none => rfl
    | some tel =>
      simp only [telemetryLine, fixedText_eq, text_eq]
  · exact setStateBadge_stateText _ _
  · exact setStateBadge_badge _ _

theorem setKV_none (w : View) : setStateBadge .null (setKV none w) = placeholderView := by
  rfl

theorem loadRecent_toast (a b c : String) (s : State) :
    loadRecent (toast a b c s) = loadRecent s := rfl

/-- C5: for a non-empty identifier whose request succeeds with snapshot `v`, `fetchVehicle`
does not raise and ends with `currentVehicleId` equal to the identifier, the rendered view
equal to the projection of `v` (identifier, type, city and state as text, the telemetry
summary line with coordinates rounded to four decimals, the badge of the state, and the
placeholder for whatever is missing, whatever was shown before), the identifier at
position 0 of the recent list and nowhere else in it, and exactly one new notification, of
type `good`, whose message is `State: ` followed by `v.state`. -/
theorem C5_fetchVehicle_success (net : Net) (id : JSVal) (s : State) (v : Data)
    (hid : id.truthy = true) (hv : (getJSON net (vehiclePath id) s).1 = .ok v) :
    (fetchVehicle net id s).1 = .ok () ∧
    (fetchVehicle net id s).2.currentVehicleId = id ∧
    (fetchVehicle net id s).2.view = specView v ∧
    (∀ x, v.id = .str x → x ≠ "" → (fetchVehicle net id s).2.view.kvId = x) ∧
    (∀ x, v.type = .str x → x ≠ "" → (fetchVehicle net id s).2.view.kvType = x) ∧
    (∀ x, v.city = .str x → x ≠ "" → (fetchVehicle net id s).2.view.kvCity = x) ∧
    (∀ x, v.state = .str x → x ≠ "" → (fetchVehicle net id s).2.view.stateText = x) ∧
    (v.state = .str "AVAILABLE" →
      (fetchVehicle net id s).2.view.badge = { good := true, warn := false, bad := false }) ∧
    (v.telemetry = none → (fetchVehicle net id s).2.view.kvTel = "—") ∧
    (∀ lat lon batt temp : JSNum,
      v.telemetry = some { latitude := .num lat, longitude := .num lon,
                           batteryPercent := .num batt, temperatureC := .num temp } →
      (fetchVehicle net id s).2.view.kvTel
        = "lat=" ++ lat.fixed4 ++ ", lon=" ++ lon.fixed4 ++ ", batt=" ++ batt.shown
            ++ "%, temp=" ++ temp.shown ++ "°C") ∧
    (loadRecent (fetchVehicle net id s).2).head? = some id.toStr ∧
    id.toStr ∉ (loadRecent (fetchVehicle net id s).2).tail ∧
    (fetchVehicle net id s).2.toasts
      = s.toasts ++ [{ type := "good", title := "Vehicle Loaded",
                       msg := "State: " ++ v.state.toStr }] := by
  have hview : (fetchVehicle net id s).2.view = specView v := by
    rw [fetchVehicle_ok net id s s v hid hv]
    obtain ⟨x, rfl, hx⟩ := truthy_eq_str hid
    simp only [toast, addRecent, JSVal.truthy, hx, renderRecent, saveRecent, fetchStarted,
      bne_iff_ne, ne_eq, not_false_eq_true, decide_True, Bool.not_true, Bool.false_eq_true,
      ↓reduceIte]
    split <;> exact setKV_some _ _
  refine ⟨?_, ?_, hview, ?_, ?_, ?_, ?_, ?_, ?_, ?_, ?_, ?_, ?_⟩
  · rw [fetchVehicle_ok net id s s v hid hv]
  · rw [fetchVehicle_ok net id s s v hid hv]
    obtain ⟨x, rfl, hx⟩ := truthy_eq_str hid
    simp [toast, addRecent, JSVal.truthy, hx, renderRecent, saveRecent, fetchStarted]
    split <;> rfl
  · intro x hx hne
    rw [hview]
    simp [specView, specFieldText, hx, hne]
  · intro x hx hne
    rw [hview]
    simp [specView, specFieldText, hx, hne]
  · intro x hx hne
    rw [hview]
    simp [specView, specFieldText, hx, hne]
  · intro x hx hne
    rw [hview]
    simp [specView, specFieldText, hx, hne]
  · intro hst
    rw [hview]
    simp [specView, specSeverity, hst]
  · intro htel
    rw [hview]
    simp [specView, htel]
  · intro lat lon batt temp htel
    rw [hview]
    simp [specView, htel, specCoordinate, specRaw]
  · rw [fetchVehicle_ok net id s s v hid hv]
    obtain ⟨x, rfl, hx⟩ := truthy_eq_str hid
    simp only [loadRecent_toast, loadRecent_addRecent_str x _ hx]
    rfl
  · rw [fetchVehicle_ok net id s s v hid hv]
    obtain ⟨x, rfl, hx⟩ := truthy_eq_str hid
    simp only [loadRecent_toast, loadRecent_addRecent_str x _ hx]
    show x ∉ List.take 9 _
    intro hmem
    have := List.mem_of_mem_take hmem
    simp at this
  · rw [fetchVehicle_ok net id s s v hid hv]
    obtain ⟨x, rfl, hx⟩ := truthy_eq_str hid
    simp [toast, addRecent, JSVal.truthy, hx, renderRecent, saveRecent, fetchStarted]
    split <;> rfl

/-- C5 on a successful fetch of `v1` with the telemetry of the specification's example,
from a page showing nothing. -/
theorem C5_fetchVehicle_success_witness :
    (fetchVehicle trackedNet (.str "v1") State.fresh).1 = .ok () ∧
    (fetchVehicle trackedNet (.str "v1") State.fresh).2.currentVehicleId = .str "v1" ∧
    (fetchVehicle trackedNet (.str "v1") State.fresh).2.view
      = { kvId := "v1", kvType := "scooter", kvCity := "Metropolis",
          kvTel := "lat=40.1235, lon=-73.9000, batt=87%, temp=21.5°C",
          stateText := "AVAILABLE", badge := { good := true, warn := false, bad := false } } ∧
    (loadRecent (fetchVehicle trackedNet (.str "v1") State.fresh).2).head? = some "v1" ∧
    (fetchVehicle trackedNet (.str "v1") State.fresh).2.toasts
      = [{ type := "good", title := "Vehicle Loaded", msg := "State: AVAILABLE" }] :=
  have h := C5_fetchVehicle_success trackedNet (.str "v1") State.fresh trackedScooter rfl
    (by decide)
  ⟨h.1, h.2.1, h.2.2.1.trans (by decide), h.2.2.2.2.2.2.2.2.2.2.1,
    h.2.2.2.2.2.2.2.2.2.2.2.2⟩

/-- C6: for a non-empty identifier whose request fails with message `m`, `fetchVehicle`
raises the same failure again, leaves the rendered snapshot with the placeholder in every
field and no badge class, appends exactly one notification, of type `bad` with message `m`,
and leaves the recent list unchanged. A 404 response carrying the error `not found` is such
a failure with `m` equal to `not found`. -/
theorem C6_fetchVehicle_failure (net : Net) (id : JSVal) (s : State) (m : String)
    (hid : id.truthy = true) (hm : (getJSON net (vehiclePath id) s).1 = .error m) :
    (fetchVehicle net id s).1 = .error m ∧
    (fetchVehicle net id s).2.view = placeholderView ∧
    (fetchVehicle net id s).2.toasts
      = s.toasts ++ [{ type := "bad", title := "Fetch Failed", msg := m }] ∧
    (fetchVehicle net id s).2.storage = s.storage ∧
    (fetchVehicle net id s).2.recentList = s.recentList ∧
    (∀ d : Data, net { method := "GET", path := vehiclePath id } = .response 404 (some d) →
      d.error = .str "not found" → m = "not found") := by
  rw [fetchVehicle_error net id s s m hid hm]
  refine ⟨rfl, rfl, rfl, rfl, rfl, ?_⟩
  intro d hd he
  have : (getJSON net (vehiclePath id) s).1 = .error "not found" := by
    simp [getJSON, hd, statusOk, errorMessage, JSVal.orElse, he, JSVal.truthy, JSVal.toStr]
  rw [this] at hm
  cases hm
  rfl

/-- C6 on a 404 response carrying `not found`, from a state showing a vehicle. -/
theorem C6_fetchVehicle_failure_witness :
    (fetchVehicle notFoundNet (.str "v1") (fetchVehicle scooterNet (.str "v1") State.fresh).2).1
      = .error "not found" ∧
    (fetchVehicle notFoundNet (.str "v1")
      (fetchVehicle scooterNet (.str "v1") State.fresh).2).2.view = placeholderView ∧
    (fetchVehicle notFoundNet (.str "v1")
      (fetchVehicle scooterNet (.str "v1") State.fresh).2).2.toasts
      = [{ type := "good", title := "Vehicle Loaded", msg := "State: AVAILABLE" },
         { type := "bad", title := "Fetch Failed", msg := "not found" }] :=
  have h := C6_fetchVehicle_failure notFoundNet (.str "v1")
    (fetchVehicle scooterNet (.str "v1") State.fresh).2 "not found" rfl (by decide)
  ⟨h.1, h.2.1, h.2.2.1.trans (by decide)⟩

/-! ## Auto-refresh: the timer is touched by `btnAuto` only -/

theorem timers_toast (a b c : String) (s : State) : timers (toast a b c s) = timers s := rfl

theorem timers_getJSON (net : Net) (path : String) (s : State) :
    timers (getJSON net path s).2 = timers s := by
  rw [getJSON_snd]
  rfl

theorem timers_postJSON (net : Net) (path : String) (body : List (String × String))
    (s : State) : timers (postJSON net path body s).2 = timers s := by
  rw [postJSON_snd]
  rfl

theorem timers_renderRecent (s : State) : timers (renderRecent s) = timers s := by
  unfold renderRecent
  dsimp only
  split <;> rfl

theorem timers_addRecent (id : JSVal) (s : State) : timers (addRecent id s) = timers s := by
  unfold addRecent
  dsimp only
  split
  · rfl
  · rw [timers_renderRecent]
    rfl

theorem timers_fetchVehicle (net : Net) (id : JSVal) (s : State) :
    timers (fetchVehicle net id s).2 = timers s := by
  by_cases hid : id.truthy = true
  · cases hr : (getJSON net (vehiclePath id) s).1 with
    | ok v =>
      rw [fetchVehicle_ok net id s s v hid hr, timers_toast, timers_addRecent]
      rfl
    | error m =>
      rw [fetchVehicle_error net id s s m hid hr, timers_toast]
      rfl
  · have hf : id.truthy = false := by simpa using hid
    simp [fetchVehicle, hf, timers]

theorem timers_health (net : Net) (s : State) : timers (health net s).2 = timers s := by
  unfold health
  split
  · next _ t h =>
    have : t = (getJSON net "/health" s).2 := by rw [h]
    subst this
    exact timers_getJSON net "/health" s
  · next _ t h =>
    have : t = (getJSON net "/health" s).2 := by rw [h]
    subst this
    exact timers_getJSON net "/health" s

/-- The tail shared by the handlers that chain a fetch after their own action. -/
theorem timers_chained (net : Net) (id : JSVal) (title : String) (s : State) :
    timers (match fetchVehicle net id s with
      | (.error e, s) => toast "bad" title e s
      | (.ok _, s) => s) = timers s := by
  split
  · next _ t h =>
    have : t = (fetchVehicle net id s).2 := by rw [h]
    subst this
    rw [timers_toast, timers_fetchVehicle]
  · next _ t h =>
    have : t = (fetchVehicle net id s).2 := by rw [h]
    subst this
    exact timers_fetchVehicle net id s

theorem timers_btnRegisterClick (net : Net) (s : State) :
    timers (btnRegisterClick net s) = timers s := by
  unfold btnRegisterClick
  dsimp only
  split
  · next _ t h =>
    have : t = (health net s).2 := by rw [h]
    subst this
    rw [timers_toast, timers_health]
  · next _ t h =>
    have : t = (health net s).2 := by rw [h]
    subst this
    split
    · next _ u hu =>
      have : u = (postJSON net "/vehicles" [("type", s.regType), ("city", s.regCity)]
          (health net s).2).2 := by rw [hu]
      subst this
      rw [timers_toast, timers_postJSON, timers_health]
    · next res u hu =>
      have : u = (postJSON net "/vehicles" [("type", s.regType), ("city", s.regCity)]
          (health net s).2).2 := by rw [hu]
      subst this
      rw [timers_chained, timers_toast, timers_addRecent]
      show timers (postJSON net "/vehicles" _ (health net s).2).2 = _
      rw [timers_postJSON, timers_health]

theorem timers_btnFetchClick (net : Net) (s : State) :
    timers (btnFetchClick net s) = timers s := by
  unfold btnFetchClick
  dsimp only
  split
  · rfl
  · exact timers_fetchVehicle net _ s

theorem timers_btnReserveClick (net : Net) (s : State) :
    timers (btnReserveClick net s) = timers s := by
  unfold btnReserveClick
  dsimp only
  split
  · rfl
  · split
    · next _ u hu =>
      have : u = (postJSON net "/reserve"
          [("vehicleId", jsTrim s.vehicleId), ("city", s.actionCity)] s).2 := by rw [hu]
      subst this
      rw [timers_toast, timers_postJSON]
    · next _ u hu =>
      have : u = (postJSON net "/reserve"
          [("vehicleId", jsTrim s.vehicleId), ("city", s.actionCity)] s).2 := by rw [hu]
      subst this
      rw [timers_chained, timers_toast, timers_postJSON]

theorem timers_btnStartClick (net : Net) (s : State) :
    timers (btnStartClick net s) = timers s := by
  unfold btnStartClick
  dsimp only
  split
  · rfl
  · split
    · next _ u hu =>
      have : u = (postJSON net "/start"
          [("vehicleId", jsTrim s.vehicleId), ("city", s.actionCity)] s).2 := by rw [hu]
      subst this
      rw [timers_toast, timers_postJSON]
    · next _ u hu =>
      have : u = (postJSON net "/start"
          [("vehicleId", jsTrim s.vehicleId), ("city", s.actionCity)] s).2 := by rw [hu]
      subst this
      rw [timers_chained, timers_toast, timers_postJSON]

theorem timers_btnEndClick (net : Net) (s : State) :
    timers (btnEndClick net s) = timers s := by
  unfold btnEndClick
  dsimp only
  split
  · rfl
  · split
    · next _ u hu =>
      have : u = (postJSON net "/end" [("vehicleId", jsTrim s.vehicleId)] s).2 := by rw [hu]
      subst this
      rw [timers_toast, timers_postJSON]
    · next _ u hu =>
      have : u = (postJSON net "/end" [("vehicleId", jsTrim s.vehicleId)] s).2 := by rw [hu]
      subst this
      rw [timers_chained, timers_toast, timers_postJSON]

theorem timers_btnClearClick (s : State) : timers (btnClearClick s) = timers s := by
  unfold btnClearClick
  dsimp only
  rw [timers_toast, timers_renderRecent]
  rfl

theorem timers_init (net : Net) (s : State) : timers (init net s) = timers s := by
  unfold init
  dsimp only
  rw [timers_toast, timers_health, timers_renderRecent]
  rfl

theorem timers_btnTelemetryClick (net : Net) (form : TelemetryForm) (s : State) :
    timers (btnTelemetryClick net form s) = timers s := by
  unfold btnTelemetryClick
  dsimp only
  split
  · rfl
  · split
    · next _ u hu =>
      have hu2 := congrArg Prod.snd hu
      dsimp only at hu2
      subst hu2
      rw [timers_toast, timers_postJSON]
    · next _ u hu =>
      have hu2 := congrArg Prod.snd hu
      dsimp only at hu2
      subst hu2
      show timers (postJSON net _ _ s).2 = _
      rw [timers_postJSON]

theorem timers_telemetryRefresh (net : Net) (i : Nat) (s t : State)
    (h : telemetryRefresh net i s = some t) : timers t = timers s := by
  unfold telemetryRefresh at h
  split at h
  · cases h
  · cases h
    rw [timers_fetchVehicle]
    rfl

theorem timers_autoTick (net : Net) (s : State) : timers (autoTick net s) = timers s := by
  unfold autoTick
  split
  · rfl
  · exact timers_fetchVehicle net _ s

/-- Every event other than a click on `btnAuto` leaves the scheduler as it is. -/
theorem timers_step (e : Event) (s t : State) (he : e.isToggle = false)
    (h : step e s = some t) : timers t = timers s := by
  cases e with
  | toggle => simp [Event.isToggle] at he
  | tick k net =>
    simp only [step] at h
    split at h
    · cases h
      exact timers_autoTick net s
    · cases h
  | startup net => cases h; exact timers_init net s
  | fetch net => cases h; exact timers_btnFetchClick net s
  | register net => cases h; exact timers_btnRegisterClick net s
  | reserve net => cases h; exact timers_btnReserveClick net s
  | start net => cases h; exact timers_btnStartClick net s
  | finish net => cases h; exact timers_btnEndClick net s
  | clear => cases h; exact timers_btnClearClick s
  | recentUse id =>
    simp only [step] at h
    split at h
    · cases h
      rfl
    · cases h
  | recentView id net =>
    simp only [step] at h
    split at h
    · cases h
      exact timers_fetchVehicle net _ _
    · cases h
  | telemetry form net => cases h; exact timers_btnTelemetryClick net form s
  | timeout i net => exact timers_telemetryRefresh net i s t h
  | editVehicleId text => cases h; rfl
  | editTelVehicleId text => cases h; rfl
  | editForm a b c => cases h; rfl

theorem timerInv_of_timers {s t : State} (h : timers t = timers s) (hs : TimerInv s) :
    TimerInv t := by
  have h1 : t.autoTimer = s.autoTimer := congrArg Prod.fst h
  have h2 : t.intervals = s.intervals := congrArg Prod.snd h
  unfold TimerInv
  rw [h1, h2]
  exact hs

theorem timerInv_btnAutoClick (s : State) (hs : TimerInv s) : TimerInv (btnAutoClick s) := by
  obtain ⟨h1, h2⟩ := hs
  cases ha : s.autoTimer with
  | none =>
    rw [ha] at h1
    simp [btnAutoClick, timerTruthy, ha, setInterval, toast, TimerInv, h1]
  | some k =>
    rw [ha] at h1 h2
    have hk : k ≠ 0 := fun h => h2 (by rw [h])
    simp [btnAutoClick, timerTruthy, ha, clearInterval, toast, TimerInv, h1, hk]

theorem timerInv_reachable (s : State) (h : Reachable s) : TimerInv s := by
  induction h with
  | loaded s hl =>
    obtain ⟨_, h1, h2⟩ := hl
    simp [TimerInv, h1, h2]
  | step e s t _ hst ih =>
    by_cases he : e.isToggle = true
    · cases e <;> simp [Event.isToggle] at he
      cases hst
      exact timerInv_btnAutoClick s ih
    · exact timerInv_of_timers (timers_step e s t (by simpa using he) hst) ih

/-- While the scheduler is off and no toggle happens, no tick can be among the events and
the scheduler stays off. -/
theorem run_off (es : List Event) (s t : State) (hs : TimerInv s) (hoff : s.autoTimer = none)
    (hrun : run es s = some t) (hno : ∀ e ∈ es, e.isToggle = false) :
    (∀ e ∈ es, e.isTick = false) ∧ t.autoTimer = none ∧ t.intervals = [] := by
  induction es generalizing s with
  | nil =>
    cases hrun
    refine ⟨by simp, hoff, ?_⟩
    rw [hs.1, hoff]
    rfl
  | cons e rest ih =>
    have hint : s.intervals = [] := by
      rw [hs.1, hoff]
      rfl
    simp only [run] at hrun
    cases hst : step e s with
    | none => simp [hst] at hrun
    | some u =>
      rw [hst] at hrun
      have hrest : run rest u = some t := hrun
      have het : e.isToggle = false := hno e (List.mem_cons_self _ _)
      have htm := timers_step e s u het hst
      have hu : TimerInv u := timerInv_of_timers htm hs
      have huoff : u.autoTimer = none := (congrArg Prod.fst htm).trans hoff
      have hrec := ih u hu huoff hrest (fun x hx => hno x (List.mem_cons_of_mem _ hx))
      refine ⟨?_, hrec.2⟩
      intro x hx
      rcases List.mem_cons.mp hx with rfl | hx
      · cases x with
        | tick k net => simp [step, hint] at hst
        | _ => rfl
      · exact hrec.1 x hx

/-- C8: the refresh scheduler. In every reachable state in which it is off: toggling it on
and immediately off again invokes no fetch, issues no request and ends off, with
`autoTimer` `null` and no timer left running, although a timer was running in between;
no tick can fire; and in every run from there that contains no toggle, no event is a tick
and the scheduler is still off at the end. -/
theorem C8_refresh_scheduler (s : State) (hr : Reachable s) (hoff : s.autoTimer = none) :
    ((btnAutoClick s).autoTimer = some (s.timerSeq + 1) ∧
      (btnAutoClick s).intervals = [s.timerSeq + 1] ∧
      (btnAutoClick (btnAutoClick s)).autoTimer = none ∧
      (btnAutoClick (btnAutoClick s)).intervals = [] ∧
      (btnAutoClick (btnAutoClick s)).fetchCalls = s.fetchCalls ∧
      (btnAutoClick (btnAutoClick s)).requests = s.requests) ∧
    (∀ h net, step (.tick h net) s = none) ∧
    (∀ es t, run es s = some t → (∀ e ∈ es, e.isToggle = false) →
      (∀ e ∈ es, e.isTick = false) ∧ t.autoTimer = none ∧ t.intervals = []) := by
  have hinv := timerInv_reachable s hr
  have hint : s.intervals = [] := by
    rw [hinv.1, hoff]
    rfl
  refine ⟨?_, ?_, ?_⟩
  · simp [btnAutoClick, timerTruthy, hoff, setInterval, clearInterval, toast, hint]
  · intro h net
    simp [step, hint]
  · intro es t hrun hno
    exact run_off es s t hinv hoff hrun hno

/-- C8 on a freshly loaded page on which `v1` has been fetched. -/
theorem C8_refresh_scheduler_witness :
    (btnAutoClick (btnAutoClick (recentViewClick scooterNet "v1" State.fresh))).autoTimer = none ∧
    (btnAutoClick (btnAutoClick (recentViewClick scooterNet "v1" State.fresh))).fetchCalls
      = (recentViewClick scooterNet "v1" State.fresh).fetchCalls ∧
    step (.tick 1 scooterNet) (recentViewClick scooterNet "v1" State.fresh) = none :=
  have h := C8_refresh_scheduler (recentViewClick scooterNet "v1" State.fresh)
    (Reachable.step (.fetch scooterNet) { State.fresh with vehicleId := "v1" } _
      (Reachable.step (.editVehicleId "v1") State.fresh _
        (Reachable.loaded State.fresh ⟨rfl, rfl, rfl⟩) rfl) (by decide)) (by decide)
  ⟨h.1.2.2.1, h.1.2.2.2.2.1, h.2.1 1 scooterNet⟩

/-! ## Register, reserve, start, end -/

theorem health_ok (net : Net) (s t : State) (d : Data)
    (h : (getJSON net "/health" t).1 = .ok d) :
    health net s = (true, setApiStatus true
      { s with requests := s.requests ++ [{ method := "GET", path := "/health" }] }) := by
  unfold health
  rw [getJSON_eq net "/health" s t (.ok d) h]

theorem addRecentCalls_addRecent (id : JSVal) (s : State) :
    (addRecent id s).addRecentCalls = s.addRecentCalls ++ [id] := by
  unfold addRecent renderRecent
  dsimp only
  split
  · rfl
  · split <;> rfl

theorem toasts_addRecent (id : JSVal) (s : State) : (addRecent id s).toasts = s.toasts := by
  unfold addRecent renderRecent
  dsimp only
  split
  · rfl
  · split <;> rfl

theorem loadRecent_addRecent_congr (id : JSVal) (s t : State) (h : s.storage = t.storage) :
    loadRecent (addRecent id s) = loadRecent (addRecent id t) := by
  have hl : loadRecent s = loadRecent t := by simp only [loadRecent, h]
  by_cases ht : id.truthy = true
  · obtain ⟨x, rfl, hx⟩ := truthy_eq_str ht
    rw [loadRecent_addRecent_str x s hx, loadRecent_addRecent_str x t hx, hl]
  · have hf : id.truthy = false := by simpa using ht
    rw [loadRecent_addRecent_falsy id s hf, loadRecent_addRecent_falsy id t hf, hl]

/-- C9, as the claim states it, fails on a successful registration of `v1`: the handler
shows the two success notifications, and `addRecent` has been invoked for `v1` twice, not
once. -/
theorem C9_register_adds_twice :
    (btnRegisterClick registerNet State.fresh).toasts
      = [{ type := "good", title := "Registered", msg := "New vehicle id created." },
         { type := "good", title := "Vehicle Loaded", msg := "State: AVAILABLE" }] ∧
    (btnRegisterClick registerNet State.fresh).addRecentCalls = [.str "v1", .str "v1"] ∧
    (btnRegisterClick registerNet State.fresh).addRecentCalls.count (.str "v1") ≠ 1 := by
  decide

/-- C9 (amended): in every successful registration (the health check succeeds, the POST of
`/vehicles` returns a non-empty identifier and the chained fetch of it succeeds) `addRecent`
is invoked exactly twice for the new identifier, once by the handler and once by the chained
`fetchVehicle`, and nothing else is added; the recent list ends as after a single
`addRecent`, with the identifier at position 0 and nowhere else. -/
theorem C9_register_adds_recent (net : Net) (s : State) (h v res : Data)
    (hh : (getJSON net "/health" s).1 = .ok h)
    (hp : (postJSON net "/vehicles" [("type", s.regType), ("city", s.regCity)] s).1 = .ok res)
    (hid : res.id.truthy = true)
    (hv : (getJSON net (vehiclePath res.id) s).1 = .ok v) :
    (btnRegisterClick net s).addRecentCalls = s.addRecentCalls ++ [res.id, res.id] ∧
    loadRecent (btnRegisterClick net s) = loadRecent (addRecent res.id s) ∧
    (loadRecent (btnRegisterClick net s)).head? = some res.id.toStr ∧
    res.id.toStr ∉ (loadRecent (btnRegisterClick net s)).tail := by
  have hreg : btnRegisterClick net s
      = toast "good" "Vehicle Loaded" ("State: " ++ v.state.toStr)
          (addRecent res.id
            { fetchStarted res.id (registered res s) with
              view := setKV (some v) (fetchStarted res.id (registered res s)).view }) := by
    unfold btnRegisterClick
    dsimp only
    rw [health_ok net s s h hh]
    dsimp only
    rw [postJSON_eq net _ _ _ s (.ok res) hp]
    dsimp only
    rw [fetchVehicle_ok net res.id _ s v hid hv]
    rfl
  obtain ⟨x, hx', hx⟩ := truthy_eq_str hid
  have hmid : loadRecent (registered res s) = loadRecent (addRecent res.id s) := by
    unfold registered
    rw [loadRecent_toast]
    exact loadRecent_addRecent_congr res.id _ s rfl
  have hload : loadRecent (btnRegisterClick net s) = loadRecent (addRecent res.id s) := by
    rw [hreg, loadRecent_toast, hx', loadRecent_addRecent_str x _ hx]
    have hin : loadRecent
        { fetchStarted (.str x) (registered res s) with
          view := setKV (some v) (fetchStarted (.str x) (registered res s)).view }
        = loadRecent (addRecent (.str x) s) := by
      rw [← hx', ← hmid]
      rfl
    rw [hin, loadRecent_addRecent_str x s hx]
    exact mru_twice x (loadRecent s)
  refine ⟨?_, hload, ?_, ?_⟩
  · rw [hreg]
    show (addRecent res.id _).addRecentCalls = _
    rw [addRecentCalls_addRecent]
    show (addRecent res.id _).addRecentCalls ++ [res.id] = _
    rw [addRecentCalls_addRecent]
    simp [setApiStatus]
  · rw [hload, hx', loadRecent_addRecent_str x s hx]
    rfl
  · rw [hload, hx', loadRecent_addRecent_str x s hx]
    show x ∉ List.take 9 _
    intro hmem
    have := List.mem_of_mem_take hmem
    simp at this

/-- C9 (amended) on the registration of `v1` on a fresh page. -/
theorem C9_register_adds_recent_witness :
    (btnRegisterClick registerNet State.fresh).addRecentCalls = [.str "v1", .str "v1"] ∧
    loadRecent (btnRegisterClick registerNet State.fresh) = ["v1"] :=
  have h := C9_register_adds_recent registerNet State.fresh scooter scooter
    { id := .str "v1" } (by decide) (by decide) (by decide) (by decide)
  ⟨h.1, h.2.1.trans (by decide)⟩

/-- C10: in the handlers of `btnReserve`, `btnStart` and `btnEnd` with a non-empty vehicle
id, when the POST of the action succeeds and the chained `fetchVehicle` fails with message
`m`, the handler (which cannot raise) emits exactly three notifications, in this order: the
`good` one of the action, a `bad` one titled `Fetch Failed` with message `m`, and a `bad` one
titled after the action (`Reserve Failed`, `Start Failed`, `End Failed`) with the same
message `m`. -/
theorem C10_fetch_failure_reported_twice (net : Net) (s : State) (m : String)
    (hid : jsTrim s.vehicleId ≠ "")
    (hm : (getJSON net (vehiclePath (.str (jsTrim s.vehicleId))) s).1 = .error m) :
    ((∃ d, (postJSON net "/reserve"
        [("vehicleId", jsTrim s.vehicleId), ("city", s.actionCity)] s).1 = .ok d) →
      (btnReserveClick net s).toasts = s.toasts ++
        [{ type := "good", title := "Reserved", msg := "Vehicle reserved." },
         { type := "bad", title := "Fetch Failed", msg := m },
         { type := "bad", title := "Reserve Failed", msg := m }]) ∧
    ((∃ d, (postJSON net "/start"
        [("vehicleId", jsTrim s.vehicleId), ("city", s.actionCity)] s).1 = .ok d) →
      (btnStartClick net s).toasts = s.toasts ++
        [{ type := "good", title := "Rental Started", msg := "Vehicle moved to IN_USE." },
         { type := "bad", title := "Fetch Failed", msg := m },
         { type := "bad", title := "Start Failed", msg := m }]) ∧
    ((∃ d, (postJSON net "/end" [("vehicleId", jsTrim s.vehicleId)] s).1 = .ok d) →
      (btnEndClick net s).toasts = s.toasts ++
        [{ type := "good", title := "Rental Ended", msg := "Vehicle ended and state updated." },
         { type := "bad", title := "Fetch Failed", msg := m },
         { type := "bad", title := "End Failed", msg := m }]) := by
  have ht : (JSVal.str (jsTrim s.vehicleId)).truthy = true := by
    simpa [JSVal.truthy] using hid
  refine ⟨?_, ?_, ?_⟩
  · rintro ⟨d, hd⟩
    unfold btnReserveClick
    dsimp only
    rw [if_neg hid, postJSON_eq net _ _ _ s (.ok d) hd]
    dsimp only
    rw [fetchVehicle_error net _ _ s m ht hm]
    simp [toast, fetchStarted]
  · rintro ⟨d, hd⟩
    unfold btnStartClick
    dsimp only
    rw [if_neg hid, postJSON_eq net _ _ _ s (.ok d) hd]
    dsimp only
    rw [fetchVehicle_error net _ _ s m ht hm]
    simp [toast, fetchStarted]
  · rintro ⟨d, hd⟩
    unfold btnEndClick
    dsimp only
    rw [if_neg hid, postJSON_eq net _ _ _ s (.ok d) hd]
    dsimp only
    rw [fetchVehicle_error net _ _ s m ht hm]
    simp [toast, fetchStarted]

/-- C10 on the reserve handler, with ` v1 ` typed into the form. -/
theorem C10_fetch_failure_reported_twice_witness :
    (btnReserveClick lostNet { State.fresh with vehicleId := " v1 " }).toasts =
      [{ type := "good", title := "Reserved", msg := "Vehicle reserved." },
       { type := "bad", title := "Fetch Failed", msg := "not found" },
       { type := "bad", title := "Reserve Failed", msg := "not found" }] :=
  (C10_fetch_failure_reported_twice lostNet { State.fresh with vehicleId := " v1 " }
    "not found" (by decide) (by decide)).1 ⟨{}, by decide⟩

end SmartMove
